import Mathlib

/-
Verification of the homework_bot repository (src/homework.py) against its
natural-language specification.

The Python module is shallowly embedded below.  External effects are made
explicit:
  * the HTTP world is a function from the `from_date` query parameter to an
    `HttpResult` (network failure, or a status code together with a body that
    is either valid JSON or undecodable);
  * the messaging transport (`bot.send_message`) is a function from the
    message text to success/failure, plus the error text the transport
    produces on failure;
  * `int(time.time())` is the `now` field of the environment of an iteration;
  * `time.sleep` and logging are pure delays / observations and are elided;
  * one iteration of the `while True:` body of `main` becomes the function
    `main_iteration`, which returns the loop variables after the iteration,
    the list of `from_date` values of the HTTP requests made, the list of
    messages successfully handed to the transport, and — when an exception
    escapes the `try`/`except` of the loop body — the escaping exception.
-/

namespace HomeworkBot

/-- JSON values, the shape of what `response.json()` can return. -/
inductive Json where
  | null
  | bool (b : Bool)
  | num (n : Int)
  | str (s : String)
  | arr (items : List Json)
  | obj (fields : List (String × Json))

/-- Python `str()` of a JSON value, as used by the f-strings of
`parse_status`.  Every field a claim exercises is a scalar; the rendering of
container values (never exercised) is abbreviated. -/
def pyStr : Json → String
  | Json.str s => s
  | Json.num n => toString n
  | Json.bool true => "True"
  | Json.bool false => "False"
  | Json.null => "None"
  | Json.arr _ => "[...]"
  | Json.obj _ => "\x7b...\x7d"

/-- Python `type(x)` rendering, used in the TypeError messages of
`check_response`. -/
def pyTypeName : Json → String
  | Json.str _ => "<class \x27str\x27>"
  | Json.num _ => "<class \x27int\x27>"
  | Json.bool _ => "<class \x27bool\x27>"
  | Json.null => "<class \x27NoneType\x27>"
  | Json.arr _ => "<class \x27list\x27>"
  | Json.obj _ => "<class \x27dict\x27>"

/-- The constant `ENDPOINT` of homework.py. -/
def ENDPOINT : String := "https://practicum.yandex.ru/api/user_api/homework_statuses/"

/-- The constant `RETRY_TIME` of homework.py (seconds of `time.sleep`). -/
def RETRY_TIME : Nat := 600

/-- The dict `HOMEWORK_STATUSES` of homework.py: the closed status catalog. -/
def HOMEWORK_STATUSES : List (String × String) :=
  [("approved", "Работа проверена: ревьюеру всё понравилось. Ура!"),
   ("reviewing", "Работа взята на проверку ревьюером."),
   ("rejected", "Работа проверена: у ревьюера есть замечания.")]

/-- The exceptions homework.py can raise.  The raise sites are all in
src/homework.py; the classes `SendMessageException`, `GetAPIAnswerException`,
`CheckResponseException` and `ParseStatusException` live in exceptions.py,
which is not under src/.  Modelled from the spec: the spec's error taxonomy
(§7) treats them as plain tagged error kinds, so they are modelled as plain
`Exception` subclasses each carrying the single argument it is constructed
with (for `SendMessageException(error)` that argument is the underlying
transport error).  `jsonDecodeError`, `typeError`, `keyError` and
`valueError` are the Python built-ins raised by `.json()`, `check_response`,
dict subscription and `main` respectively. -/
inductive BotError where
  | sendMessageException (inner : String)
  | getAPIAnswerException (message : String)
  | jsonDecodeError (message : String)
  | typeError (message : String)
  | checkResponseException (message : String)
  | keyError (key : String)
  | parseStatusException (message : String)
  | valueError (message : String)
deriving DecidableEq

/-- Modelled from the spec: Python `str(error)`.  exceptions.py is not under
src/; per the spec's taxonomy its classes are plain single-argument
`Exception` subclasses, for which `str` returns the argument.  `str` of a
`KeyError` is the missing key in quotes, Python's behavior for the built-in. -/
def errorStr : BotError → String
  | BotError.sendMessageException inner => inner
  | BotError.getAPIAnswerException message => message
  | BotError.jsonDecodeError message => message
  | BotError.typeError message => message
  | BotError.checkResponseException message => message
  | BotError.keyError key => "\x27" ++ key ++ "\x27"
  | BotError.parseStatusException message => message
  | BotError.valueError message => message

/-- Body of an HTTP response: valid JSON, or undecodable (carrying the
message of the `JSONDecodeError` that `.json()` raises on it). -/
inductive Body where
  | json (j : Json)
  | invalid (decodeMessage : String)

/-- Outcome of `requests.get`: the request itself raises, or a response
arrives with a status code and a body. -/
inductive HttpResult where
  | networkFailure (err : String)
  | response (status_code : Nat) (body : Body)

/-- The external world of one loop iteration: the value of `int(time.time())`
at the top of the iteration, the HTTP service as a function of the
`from_date` parameter sent, and the messaging transport (whether sending a
given text succeeds, and the error text produced when it fails). -/
structure IterEnv where
  now : Int
  http : Int → HttpResult
  sendOk : String → Bool
  sendErr : String → String

/-- The three environment values read at module load
(`os.getenv` returns `None` when the variable is unset). -/
structure Config where
  PRACTICUM_TOKEN : Option String
  TELEGRAM_TOKEN : Option String
  TELEGRAM_CHAT_ID : Option String

/-- The loop variables of `main`: `current_status` and `current_error`. -/
structure LoopState where
  current_status : String
  current_error : String
deriving DecidableEq

/-- Result of the body of the `try`/`except` of one loop iteration:
the escaping exception if one propagates out of the `except` handler,
the loop variables afterwards, and the messages successfully sent. -/
structure StepOut where
  crashed : Option BotError
  state : LoopState
  sent : List String
deriving DecidableEq

/-- Observable result of one full loop iteration: `StepOut` plus the
`from_date` values of the HTTP requests issued. -/
structure IterResult where
  crashed : Option BotError
  state : LoopState
  requests : List Int
  sent : List String
deriving DecidableEq

/-- Python truthiness of an `int`: zero is falsy. -/
def intTruthy (n : Int) : Bool := n != 0

/-- Python `a or b` specialised to `int` operands:
returns `a` when `a` is truthy, else `b`. -/
def py_or_int (a b : Int) : Int := if intTruthy a then a else b

/-- Embedding of `send_message(bot, message)` (homework.py lines 42-49):
hands `message` to the transport; on transport failure it logs and raises
`SendMessageException(error)`.  Returns the result together with the list of
messages actually delivered. -/
def send_message (env : IterEnv) (message : String) :
    Except BotError Unit × List String :=
  if env.sendOk message then (Except.ok (), [message])
  else (Except.error (BotError.sendMessageException (env.sendErr message)), [])

/-- Embedding of `get_api_answer(current_timestamp)` (homework.py lines
52-70): `timestamp = current_timestamp or int(time.time())`, one GET with
`from_date=timestamp`, `GetAPIAnswerException` on a network fault or a
non-200 status code, then `.json()` (whose `JSONDecodeError` on an
undecodable body is not caught).  Returns the `from_date` actually sent
together with the result. -/
def get_api_answer (env : IterEnv) (current_timestamp : Int) :
    Int × Except BotError Json :=
  let timestamp := py_or_int current_timestamp env.now
  let result : Except BotError Json :=
    match env.http timestamp with
    | HttpResult.networkFailure err =>
        Except.error (BotError.getAPIAnswerException
          ("Эндпоинт " ++ ENDPOINT ++ " недоступен: " ++ err))
    | HttpResult.response status_code body =>
        if status_code ≠ 200 then
          Except.error (BotError.getAPIAnswerException
            ("Код ответа API: " ++ toString status_code))
        else
          match body with
          | Body.json j => Except.ok j
          | Body.invalid decodeMessage =>
              Except.error (BotError.jsonDecodeError decodeMessage)
  (timestamp, result)

/-- Embedding of `check_response(response)` (homework.py lines 73-95):
`TypeError` when the response is not a dict, `CheckResponseException` when
the key `homeworks` is missing (`str` of the caught `KeyError` is
interpolated), `TypeError` when that field is not a list; otherwise the
list, unchanged. -/
def check_response (response : Json) : Except BotError (List Json) :=
  match response with
  | Json.obj fields =>
    match fields.lookup "homeworks" with
    | none => Except.error (BotError.checkResponseException
        "Ключ homeworks недоступен: \x27homeworks\x27")
    | some v =>
      match v with
      | Json.arr homeworks_list => Except.ok homeworks_list
      | other => Except.error (BotError.typeError
          ("В ответе от API домашки приходят не в виде списка. Получен: "
            ++ pyTypeName other))
  | other => Except.error (BotError.typeError
      ("Тип данных в ответе от API не соотвествует ожидаемому. Получен: "
        ++ pyTypeName other))

/-- Embedding of `parse_status(homework)` (homework.py lines 98-113):
subscription of the two fields (`KeyError` when one is missing, `TypeError`
when the record is not a dict), then the catalog test
`homework_status in HOMEWORK_STATUSES`: on a hit the formatted sentence, on a
miss `ParseStatusException` carrying the unknown code. -/
def parse_status (homework : Json) : Except BotError String :=
  match homework with
  | Json.obj fields =>
    match fields.lookup "homework_name" with
    | none => Except.error (BotError.keyError "homework_name")
    | some nameJ =>
      match fields.lookup "status" with
      | none => Except.error (BotError.keyError "status")
      | some statusJ =>
        let homework_name := pyStr nameJ
        let homework_status := pyStr statusJ
        match HOMEWORK_STATUSES.lookup homework_status with
        | some verdict => Except.ok
            ("Изменился статус проверки работы \"" ++ homework_name
              ++ "\". " ++ verdict)
        | none => Except.error (BotError.parseStatusException
            ("Передан неизвестный статус домашней работы \""
              ++ homework_status ++ "\""))
  | _ => Except.error (BotError.typeError
      "string indices must be integers")

/-- Embedding of `check_tokens()` (homework.py lines 116-133): iterates over
the three environment values, clearing the availability flag for each one
that `is None` (a present-but-empty string is not `None`). -/
def check_tokens (config : Config) : Bool :=
  let env_variables :=
    [("PRACTICUM_TOKEN", config.PRACTICUM_TOKEN),
     ("TELEGRAM_TOKEN", config.TELEGRAM_TOKEN),
     ("TELEGRAM_CHAT_ID", config.TELEGRAM_CHAT_ID)]
  env_variables.foldl
    (fun availability kv => if kv.snd.isNone then false else availability)
    true

/-- Embedding of the startup check of `main` (homework.py lines 138-139):
`if not check_tokens(): raise ValueError(...)` before the loop is entered. -/
def main_startup (config : Config) : Except BotError Unit :=
  if check_tokens config then Except.ok ()
  else Except.error (BotError.valueError "Проверьте переменные окружения")

/-- Embedding of the `except Exception as error:` handler of `main`
(homework.py lines 159-165): build the message, and when
`current_error != str(error)` update `current_error` and call
`send_message`; an exception raised by that call happens inside the handler,
so it escapes (`crashed`).  `sent` is the list of messages already delivered
earlier in the iteration. -/
def handle_error (env : IterEnv) (s : LoopState) (sent : List String)
    (error : BotError) : StepOut :=
  let message := "Сбой в работе программы: " ++ errorStr error
  if s.current_error ≠ errorStr error then
    let s2 : LoopState := { s with current_error := errorStr error }
    match send_message env message with
    | (Except.ok _, out) => { crashed := none, state := s2, sent := sent ++ out }
    | (Except.error e2, out) => { crashed := some e2, state := s2, sent := sent ++ out }
  else
    { crashed := none, state := s, sent := sent }

/-- Embedding of one iteration of the `while True:` body of `main`
(homework.py lines 144-165): `current_timestamp = int(time.time())`, fetch,
validate, and — when the homework list is non-empty — parse the first record
and compare with `current_status`; on a change, `current_status` is assigned
first and `send_message` is called after.  Any exception from the `try`
body goes to `handle_error`. -/
def main_iteration (env : IterEnv) (s : LoopState) : IterResult :=
  let current_timestamp := env.now
  let fetched := get_api_answer env current_timestamp
  let out : StepOut :=
    match fetched.snd with
    | Except.error e => handle_error env s [] e
    | Except.ok response =>
      match check_response response with
      | Except.error e => handle_error env s [] e
      | Except.ok homework =>
        match homework with
        | [] => { crashed := none, state := s, sent := [] }
        | hw :: _ =>
          match parse_status hw with
          | Except.error e => handle_error env s [] e
          | Except.ok homework_status =>
            if s.current_status = homework_status then
              { crashed := none, state := s, sent := [] }
            else
              let s2 : LoopState := { s with current_status := homework_status }
              match send_message env homework_status with
              | (Except.ok _, sentOut) =>
                  { crashed := none, state := s2, sent := sentOut }
              | (Except.error e, sentOut) => handle_error env s2 sentOut e
  { crashed := out.crashed, state := out.state,
    requests := [fetched.fst], sent := out.sent }

/-- s contains sub as a contiguous substring. -/
def containsStr (s sub : String) : Prop := ∃ p q, s = p ++ sub ++ q

/-- Initial loop state of `main`: both strings empty. -/
def initState : LoopState := { current_status := "", current_error := "" }

/-- A homework record with name hw1 and status approved. -/
def hwApproved : Json :=
  Json.obj [("homework_name", Json.str "hw1"), ("status", Json.str "approved")]

/-- The notification text `parse_status` produces for `hwApproved`. -/
def approvedText : String :=
  "Изменился статус проверки работы \"hw1\". Работа проверена: ревьюеру всё понравилось. Ура!"

/-- A well-formed API response whose homeworks list is `[hwApproved]`. -/
def okBody : Json := Json.obj [("homeworks", Json.arr [hwApproved])]

/-- World where the API returns `okBody` with status 200 and the transport
always succeeds. -/
def envOk (t : Int) : IterEnv :=
  { now := t, http := fun _ => HttpResult.response 200 (Body.json okBody),
    sendOk := fun _ => true, sendErr := fun _ => "telegram down" }

/-- World where the API answers 503 and the transport always succeeds. -/
def env503 (t : Int) : IterEnv :=
  { now := t, http := fun _ => HttpResult.response 503 (Body.json Json.null),
    sendOk := fun _ => true, sendErr := fun _ => "telegram down" }

/-- World where the API answers 404 and the transport always succeeds. -/
def env404 (t : Int) : IterEnv :=
  { now := t, http := fun _ => HttpResult.response 404 (Body.json Json.null),
    sendOk := fun _ => true, sendErr := fun _ => "telegram down" }

/-- World where the API answers 503 and the transport always fails. -/
def envC1 : IterEnv :=
  { now := 100, http := fun _ => HttpResult.response 503 (Body.json Json.null),
    sendOk := fun _ => false, sendErr := fun _ => "telegram down" }

/-- World where the API returns `okBody` but the transport fails exactly on
the status-change notification text (and succeeds on everything else). -/
def envC3 : IterEnv :=
  { now := 100, http := fun _ => HttpResult.response 200 (Body.json okBody),
    sendOk := fun m => !(m == approvedText), sendErr := fun _ => "telegram down" }

/-- World where the API answers 200 with an undecodable body. -/
def envBadJson (t : Int) : IterEnv :=
  { now := t,
    http := fun _ => HttpResult.response 200 (Body.invalid "Expecting value: line 1 column 1 (char 0)"),
    sendOk := fun _ => true, sendErr := fun _ => "telegram down" }

/-- A configuration whose first secret is present but empty. -/
def cfgEmptyTok : Config :=
  { PRACTICUM_TOKEN := some "", TELEGRAM_TOKEN := some "tok",
    TELEGRAM_CHAT_ID := some "42" }

theorem py_or_int_self (n : Int) : py_or_int n n = n := by
  unfold py_or_int intTruthy
  split <;> rfl

theorem get_api_answer_fst (env : IterEnv) (ts : Int) :
    (get_api_answer env ts).fst = py_or_int ts env.now := rfl

theorem handle_error_eq_dup (env : IterEnv) (s : LoopState) (sent : List String)
    (e : BotError) (hdup : s.current_error = errorStr e) :
    handle_error env s sent e = { crashed := none, state := s, sent := sent } := by
  simp [handle_error, hdup]

theorem handle_error_eq_fresh_ok (env : IterEnv) (s : LoopState) (sent : List String)
    (e : BotError) (hdedup : s.current_error ≠ errorStr e)
    (hsend : env.sendOk ("Сбой в работе программы: " ++ errorStr e) = true) :
    handle_error env s sent e =
      { crashed := none, state := { s with current_error := errorStr e },
        sent := sent ++ ["Сбой в работе программы: " ++ errorStr e] } := by
  simp [handle_error, send_message, hdedup, hsend]

theorem handle_error_eq_fresh_fail (env : IterEnv) (s : LoopState) (sent : List String)
    (e : BotError) (hdedup : s.current_error ≠ errorStr e)
    (hsend : env.sendOk ("Сбой в работе программы: " ++ errorStr e) = false) :
    handle_error env s sent e =
      { crashed := some (BotError.sendMessageException
            (env.sendErr ("Сбой в работе программы: " ++ errorStr e))),
        state := { s with current_error := errorStr e },
        sent := sent } := by
  simp [handle_error, send_message, hdedup, hsend]

theorem handle_error_state (env : IterEnv) (s : LoopState) (sent : List String)
    (e : BotError) :
    (handle_error env s sent e).state.current_status = s.current_status := by
  by_cases h : s.current_error = errorStr e
  · rw [handle_error_eq_dup env s sent e h]
  · cases hs : env.sendOk ("Сбой в работе программы: " ++ errorStr e)
    · rw [handle_error_eq_fresh_fail env s sent e h hs]
    · rw [handle_error_eq_fresh_ok env s sent e h hs]

theorem main_iteration_error (env : IterEnv) (s : LoopState) (e : BotError)
    (hfail : (get_api_answer env env.now).snd = Except.error e) :
    main_iteration env s =
      { crashed := (handle_error env s [] e).crashed,
        state := (handle_error env s [] e).state,
        requests := [env.now],
        sent := (handle_error env s [] e).sent } := by
  simp [main_iteration, hfail, get_api_answer_fst, py_or_int_self]

theorem main_iteration_new_status_sent (env : IterEnv) (s : LoopState)
    (doc hw : Json) (rest : List Json) (t : String)
    (hhttp : env.http env.now = HttpResult.response 200 (Body.json doc))
    (hcheck : check_response doc = Except.ok (hw :: rest))
    (hparse : parse_status hw = Except.ok t)
    (hnew : s.current_status ≠ t)
    (hsend : env.sendOk t = true) :
    main_iteration env s =
      { crashed := none, state := { s with current_status := t },
        requests := [env.now], sent := [t] } := by
  have hfetch : (get_api_answer env env.now).snd = Except.ok doc := by
    simp [get_api_answer, py_or_int_self, hhttp]
  simp [main_iteration, hfetch, hcheck, hparse, hnew, send_message, hsend,
    get_api_answer_fst, py_or_int_self]

theorem main_iteration_new_status_sendfail (env : IterEnv) (s : LoopState)
    (doc hw : Json) (rest : List Json) (t : String)
    (hhttp : env.http env.now = HttpResult.response 200 (Body.json doc))
    (hcheck : check_response doc = Except.ok (hw :: rest))
    (hparse : parse_status hw = Except.ok t)
    (hnew : s.current_status ≠ t)
    (hsend : env.sendOk t = false) :
    main_iteration env s =
      { crashed := (handle_error env { s with current_status := t } []
            (BotError.sendMessageException (env.sendErr t))).crashed,
        state := (handle_error env { s with current_status := t } []
            (BotError.sendMessageException (env.sendErr t))).state,
        requests := [env.now],
        sent := (handle_error env { s with current_status := t } []
            (BotError.sendMessageException (env.sendErr t))).sent } := by
  have hfetch : (get_api_answer env env.now).snd = Except.ok doc := by
    simp [get_api_answer, py_or_int_self, hhttp]
  simp [main_iteration, hfetch, hcheck, hparse, hnew, send_message, hsend,
    get_api_answer_fst, py_or_int_self]

theorem main_iteration_same_status (env : IterEnv) (s : LoopState)
    (doc hw : Json) (rest : List Json) (t : String)
    (hhttp : env.http env.now = HttpResult.response 200 (Body.json doc))
    (hcheck : check_response doc = Except.ok (hw :: rest))
    (hparse : parse_status hw = Except.ok t)
    (hsame : s.current_status = t) :
    main_iteration env s =
      { crashed := none, state := s, requests := [env.now], sent := [] } := by
  have hfetch : (get_api_answer env env.now).snd = Except.ok doc := by
    simp [get_api_answer, py_or_int_self, hhttp]
  simp [main_iteration, hfetch, hcheck, hparse, hsame,
    get_api_answer_fst, py_or_int_self]

/-- C4: whenever the HTTP response has status 200 but its body is not valid
JSON, `get_api_answer` fails with the JSON decode error (the uncaught
`JSONDecodeError` of `.json()`), which is a failure kind distinct from the
`GetAPIAnswerException` used for network faults and non-200 statuses. -/
theorem C4_decode_error_distinct (env : IterEnv) (ts : Int) (m : String)
    (h : env.http (py_or_int ts env.now) = HttpResult.response 200 (Body.invalid m)) :
    (get_api_answer env ts).snd = Except.error (BotError.jsonDecodeError m)
      ∧ ∀ s, BotError.jsonDecodeError m ≠ BotError.getAPIAnswerException s := by
  constructor
  · simp [get_api_answer, h]
  · intro s hc
    cases hc

/-- Witness for C4 at a concrete world: the API answers 200 with an
undecodable body and the fetch fails with the decode error. -/
theorem C4_decode_error_distinct_witness :
    (get_api_answer (envBadJson 100) 100).snd
        = Except.error (BotError.jsonDecodeError "Expecting value: line 1 column 1 (char 0)")
      ∧ ∀ s, BotError.jsonDecodeError "Expecting value: line 1 column 1 (char 0)"
          ≠ BotError.getAPIAnswerException s :=
  C4_decode_error_distinct (envBadJson 100) 100
    "Expecting value: line 1 column 1 (char 0)" rfl

/-- C10: `get_api_answer` selects the default by truthiness
(`current_timestamp or int(time.time())`), so for the input timestamp 0 the
`from_date` actually sent is the current time, while every non-zero input is
passed through unchanged. -/
theorem C10_timestamp_truthiness (env : IterEnv) (ts : Int) :
    (get_api_answer env 0).fst = env.now
      ∧ (ts ≠ 0 → (get_api_answer env ts).fst = ts) := by
  constructor
  · rw [get_api_answer_fst]
    simp [py_or_int, intTruthy]
  · intro h
    rw [get_api_answer_fst]
    simp [py_or_int, intTruthy, h]

/-- Witness for C10: with the current time 777, input 0 is replaced by 777
while input 5 is passed through. -/
theorem C10_timestamp_truthiness_witness :
    (get_api_answer (env503 777) 0).fst = 777
      ∧ ((5 : Int) ≠ 0 ∧ (get_api_answer (env503 777) 5).fst = 5) := by
  have h := C10_timestamp_truthiness (env503 777) 5
  exact ⟨h.1, by decide, h.2 (by decide)⟩

/-- C5 counterexample: a configuration whose upstream token is present but
empty passes `check_tokens`, so startup succeeds and the loop is entered —
the claim's "absent or empty ⇒ fatal" is false for empty values. -/
theorem C5_counterexample :
    cfgEmptyTok.PRACTICUM_TOKEN = some ""
      ∧ check_tokens cfgEmptyTok = true
      ∧ main_startup cfgEmptyTok = Except.ok () :=
  ⟨rfl, rfl, rfl⟩

/-- C5 amended: startup fails fatally exactly when at least one of the three
configuration values is absent (`None`); a present value passes the check
even when it is the empty string. -/
theorem C5_startup_absent_only (config : Config) :
    main_startup config = Except.error (BotError.valueError "Проверьте переменные окружения")
      ↔ (config.PRACTICUM_TOKEN = none ∨ config.TELEGRAM_TOKEN = none
          ∨ config.TELEGRAM_CHAT_ID = none) := by
  obtain ⟨a, b, c⟩ := config
  cases a <;> cases b <;> cases c <;> simp [main_startup, check_tokens]

/-- C6: for every record carrying a `homework_name` string field and a
`status` string field whose code is in the catalog, `parse_status` succeeds
with a sentence that contains the homework name and, verbatim, the catalog
verdict for that status. -/
theorem C6_parse_status_known (fields : List (String × Json))
    (name code verdict : String)
    (hname : fields.lookup "homework_name" = some (Json.str name))
    (hstatus : fields.lookup "status" = some (Json.str code))
    (hcat : HOMEWORK_STATUSES.lookup code = some verdict) :
    parse_status (Json.obj fields)
        = Except.ok ("Изменился статус проверки работы \"" ++ name ++ "\". " ++ verdict)
      ∧ containsStr ("Изменился статус проверки работы \"" ++ name ++ "\". " ++ verdict) name
      ∧ containsStr ("Изменился статус проверки работы \"" ++ name ++ "\". " ++ verdict) verdict := by
  refine ⟨?_, ?_, ?_⟩
  · simp [parse_status, hname, hstatus, pyStr, hcat]
  · exact ⟨"Изменился статус проверки работы \"", "\". " ++ verdict, by
      simp [String.append_assoc]⟩
  · exact ⟨"Изменился статус проверки работы \"" ++ name ++ "\". ", "", by
      simp [String.append_assoc]⟩

/-- Witness for C6 on the concrete approved record. -/
theorem C6_parse_status_known_witness :
    parse_status (Json.obj [("homework_name", Json.str "hw1"), ("status", Json.str "approved")])
        = Except.ok ("Изменился статус проверки работы \"" ++ "hw1" ++ "\". "
            ++ "Работа проверена: ревьюеру всё понравилось. Ура!")
      ∧ containsStr ("Изменился статус проверки работы \"" ++ "hw1" ++ "\". "
            ++ "Работа проверена: ревьюеру всё понравилось. Ура!") "hw1"
      ∧ containsStr ("Изменился статус проверки работы \"" ++ "hw1" ++ "\". "
            ++ "Работа проверена: ревьюеру всё понравилось. Ура!")
          "Работа проверена: ревьюеру всё понравилось. Ура!" :=
  C6_parse_status_known
    [("homework_name", Json.str "hw1"), ("status", Json.str "approved")]
    "hw1" "approved" "Работа проверена: ревьюеру всё понравилось. Ура!"
    rfl rfl rfl

/-- C7 counterexample: a record whose status code is outside the catalog but
which lacks the `homework_name` field makes `parse_status` fail with the
`KeyError` of the name subscription, not with the unknown-status error the
claim predicts. -/
theorem C7_counterexample :
    parse_status (Json.obj [("status", Json.str "unknown")])
        = Except.error (BotError.keyError "homework_name")
      ∧ parse_status (Json.obj [("status", Json.str "unknown")])
          ≠ Except.error (BotError.parseStatusException
              "Передан неизвестный статус домашней работы \"unknown\"") := by
  refine ⟨rfl, ?_⟩
  intro h
  rw [show parse_status (Json.obj [("status", Json.str "unknown")])
        = Except.error (BotError.keyError "homework_name") from rfl] at h
  simp at h

/-- C7 amended: for every record having a `homework_name` field and a
`status` string field whose code is outside the catalog, `parse_status`
fails with `ParseStatusException` whose message carries the unrecognized
code (a record lacking `homework_name` instead fails with `KeyError` before
the status is examined). -/
theorem C7_unknown_status_error (fields : List (String × Json))
    (nameJ : Json) (code : String)
    (hname : fields.lookup "homework_name" = some nameJ)
    (hstatus : fields.lookup "status" = some (Json.str code))
    (h1 : code ≠ "approved") (h2 : code ≠ "reviewing") (h3 : code ≠ "rejected") :
    parse_status (Json.obj fields)
        = Except.error (BotError.parseStatusException
            ("Передан неизвестный статус домашней работы \"" ++ code ++ "\""))
      ∧ containsStr ("Передан неизвестный статус домашней работы \"" ++ code ++ "\"") code := by
  have hb1 : (code == "approved") = false := beq_eq_false_iff_ne.mpr h1
  have hb2 : (code == "reviewing") = false := beq_eq_false_iff_ne.mpr h2
  have hb3 : (code == "rejected") = false := beq_eq_false_iff_ne.mpr h3
  have hmiss : HOMEWORK_STATUSES.lookup code = none := by
    simp [HOMEWORK_STATUSES, List.lookup, hb1, hb2, hb3]
  refine ⟨?_, ⟨"Передан неизвестный статус домашней работы \"", "\"", rfl⟩⟩
  simp [parse_status, hname, hstatus, pyStr, hmiss]

/-- Witness for C7 (amended) on a concrete record with an unknown status. -/
theorem C7_unknown_status_error_witness :
    parse_status (Json.obj [("homework_name", Json.str "hw1"), ("status", Json.str "unknown")])
        = Except.error (BotError.parseStatusException
            ("Передан неизвестный статус домашней работы \"" ++ "unknown" ++ "\""))
      ∧ containsStr ("Передан неизвестный статус домашней работы \"" ++ "unknown" ++ "\"") "unknown" :=
  C7_unknown_status_error
    [("homework_name", Json.str "hw1"), ("status", Json.str "unknown")]
    (Json.str "hw1") "unknown" rfl rfl
    (by decide) (by decide) (by decide)

/-- C1 counterexample: with the API answering 503 and the transport failing,
the error handler's own `send_message` call raises inside the `except` block
and the `SendMessageException` escapes the loop — a non-startup failure
terminates the process, contradicting the claim that it is swallowed. -/
theorem C1_counterexample :
    (main_iteration envC1 initState).crashed
      = some (BotError.sendMessageException "telegram down") := by
  decide

/-- C1 amended: when an iteration fails and the error notification is
attempted (deduplication miss), a Notifier failure is not swallowed: the
`SendMessageException` raised inside the `except` handler escapes the loop
and terminates the process.  Only when the Notifier succeeds does the loop
carry on to sleep and the next polling iteration. -/
theorem C1_error_report_failure_crashes (env : IterEnv) (s : LoopState)
    (e : BotError)
    (hfail : (get_api_answer env env.now).snd = Except.error e)
    (hdedup : s.current_error ≠ errorStr e) :
    (env.sendOk ("Сбой в работе программы: " ++ errorStr e) = false →
        (main_iteration env s).crashed
          = some (BotError.sendMessageException
              (env.sendErr ("Сбой в работе программы: " ++ errorStr e))))
      ∧ (env.sendOk ("Сбой в работе программы: " ++ errorStr e) = true →
        (main_iteration env s).crashed = none
          ∧ (main_iteration env s).sent
              = ["Сбой в работе программы: " ++ errorStr e]) := by
  have hr := main_iteration_error env s e hfail
  constructor
  · intro hsend
    rw [hr, handle_error_eq_fresh_fail env s [] e hdedup hsend]
  · intro hsend
    rw [hr, handle_error_eq_fresh_ok env s [] e hdedup hsend]
    exact ⟨rfl, rfl⟩

/-- Witness for C1 (amended) at the concrete world `envC1`. -/
theorem C1_error_report_failure_crashes_witness :
    (get_api_answer envC1 envC1.now).snd
        = Except.error (BotError.getAPIAnswerException
            ("Код ответа API: " ++ toString (503 : Nat)))
      ∧ (main_iteration envC1 initState).crashed
          = some (BotError.sendMessageException "telegram down") := by
  have h := C1_error_report_failure_crashes envC1 initState
    (BotError.getAPIAnswerException ("Код ответа API: " ++ toString (503 : Nat)))
    rfl (by decide)
  exact ⟨rfl, h.1 rfl⟩

/-- C2 counterexample: iteration at time 100 fails (HTTP 503, so the error
path runs), yet the next iteration at time 200 issues its request with
`from_date = 200`, not the unchanged 100 the claim predicts — the poll
window advances even after a failed iteration. -/
theorem C2_counterexample :
    (main_iteration (env503 100) initState).crashed = none
      ∧ (main_iteration (env503 100) initState).state
          = { current_status := "", current_error := "Код ответа API: 503" }
      ∧ (main_iteration (env503 100) initState).requests = [100]
      ∧ (main_iteration (env503 200)
            (main_iteration (env503 100) initState).state).requests = [200]
      ∧ (main_iteration (env503 200)
            (main_iteration (env503 100) initState).state).requests ≠ [100] := by
  decide

/-- C2 amended: `current_timestamp = int(time.time())` is re-evaluated at the
top of every iteration, so the `from_date` sent is always the iteration's
current time, regardless of whether the previous iteration succeeded or
failed; no poll-window value is carried across iterations. -/
theorem C2_from_date_every_iteration (env : IterEnv) (s : LoopState) :
    (main_iteration env s).requests = [env.now] := by
  have h : (main_iteration env s).requests = [(get_api_answer env env.now).fst] := rfl
  rw [h, get_api_answer_fst, py_or_int_self]

/-- C3 counterexample: starting from the empty status, the status-change
notification fails (`envC3` rejects exactly that text), yet
`current_status` has already been set to the new text — and a following
iteration with the same record and a healthy transport sends nothing, so
the notification is never retried. -/
theorem C3_counterexample :
    (main_iteration envC3 initState).crashed = none
      ∧ (main_iteration envC3 initState).state.current_status = approvedText
      ∧ approvedText ≠ ""
      ∧ (main_iteration (envOk 200)
            (main_iteration envC3 initState).state).sent = [] := by
  decide

/-- C3 amended: `current_status` is assigned the new status text before the
Notifier call, so when the Notifier fails the new status is already recorded
as notified, and any later iteration presenting the same record is
suppressed as a duplicate — the status notification is not retried. -/
theorem C3_status_recorded_before_send (env : IterEnv) (s : LoopState)
    (doc hw : Json) (rest : List Json) (t : String)
    (hhttp : env.http env.now = HttpResult.response 200 (Body.json doc))
    (hcheck : check_response doc = Except.ok (hw :: rest))
    (hparse : parse_status hw = Except.ok t)
    (hnew : s.current_status ≠ t)
    (hsend : env.sendOk t = false) :
    (main_iteration env s).state.current_status = t
      ∧ ∀ env2 : IterEnv,
          env2.http env2.now = HttpResult.response 200 (Body.json doc) →
          (main_iteration env2 (main_iteration env s).state).sent = []
            ∧ (main_iteration env2 (main_iteration env s).state).crashed = none := by
  have hr := main_iteration_new_status_sendfail env s doc hw rest t
    hhttp hcheck hparse hnew hsend
  have h1 : (main_iteration env s).state.current_status = t := by
    rw [hr]
    rw [handle_error_state]
  refine ⟨h1, ?_⟩
  intro env2 h2
  have hr2 := main_iteration_same_status env2 (main_iteration env s).state
    doc hw rest t h2 hcheck hparse h1
  rw [hr2]
  exact ⟨rfl, rfl⟩

/-- Witness for C3 (amended) at the concrete worlds `envC3` and `envOk`. -/
theorem C3_status_recorded_before_send_witness :
    (main_iteration envC3 initState).state.current_status = approvedText
      ∧ (main_iteration (envOk 300)
            (main_iteration envC3 initState).state).sent = []
      ∧ (main_iteration (envOk 300)
            (main_iteration envC3 initState).state).crashed = none := by
  have h := C3_status_recorded_before_send envC3 initState okBody hwApproved []
    approvedText rfl rfl rfl (by decide) (by decide)
  have h2 := h.2 (envOk 300) rfl
  exact ⟨h.1, h2.1, h2.2⟩

/-- C8: running the iteration twice from the same loop state against API
responses carrying the same first record sends exactly one status
notification: the first run notifies and records the text in
`current_status`, the second run is suppressed as a duplicate. -/
theorem C8_duplicate_suppression (env1 env2 : IterEnv) (s : LoopState)
    (doc hw : Json) (rest : List Json) (t : String)
    (h1 : env1.http env1.now = HttpResult.response 200 (Body.json doc))
    (h2 : env2.http env2.now = HttpResult.response 200 (Body.json doc))
    (hcheck : check_response doc = Except.ok (hw :: rest))
    (hparse : parse_status hw = Except.ok t)
    (hnew : s.current_status ≠ t)
    (hsend : env1.sendOk t = true) :
    (main_iteration env1 s).sent = [t]
      ∧ (main_iteration env1 s).state.current_status = t
      ∧ (main_iteration env2 (main_iteration env1 s).state).sent = [] := by
  have hr1 := main_iteration_new_status_sent env1 s doc hw rest t
    h1 hcheck hparse hnew hsend
  refine ⟨by rw [hr1], by rw [hr1], ?_⟩
  have hr2 := main_iteration_same_status env2 (main_iteration env1 s).state
    doc hw rest t h2 hcheck hparse (by rw [hr1])
  rw [hr2]

/-- Witness for C8 at the concrete world `envOk` run at times 100 and 700. -/
theorem C8_duplicate_suppression_witness :
    (main_iteration (envOk 100) initState).sent = [approvedText]
      ∧ (main_iteration (envOk 100) initState).state.current_status = approvedText
      ∧ (main_iteration (envOk 700)
            (main_iteration (envOk 100) initState).state).sent = [] :=
  C8_duplicate_suppression (envOk 100) (envOk 700) initState okBody hwApproved []
    approvedText rfl rfl rfl rfl (by decide) rfl

/-- C9: two consecutive iterations that each fail (non-200 HTTP answers)
send exactly one error notification when the two error texts coincide, and
a second notification when the second text differs from the first. -/
theorem C9_error_deduplication (env1 env2 : IterEnv) (s : LoopState)
    (c1 c2 : Nat) (b1 b2 : Body)
    (h1 : env1.http env1.now = HttpResult.response c1 b1)
    (h2 : env2.http env2.now = HttpResult.response c2 b2)
    (hc1 : c1 ≠ 200) (hc2 : c2 ≠ 200)
    (hfresh : s.current_error ≠ "Код ответа API: " ++ toString c1)
    (hsend1 : env1.sendOk
        ("Сбой в работе программы: " ++ ("Код ответа API: " ++ toString c1)) = true) :
    (main_iteration env1 s).sent
        = ["Сбой в работе программы: " ++ ("Код ответа API: " ++ toString c1)]
      ∧ ("Код ответа API: " ++ toString c2 = "Код ответа API: " ++ toString c1 →
          (main_iteration env2 (main_iteration env1 s).state).sent = [])
      ∧ ("Код ответа API: " ++ toString c2 ≠ "Код ответа API: " ++ toString c1 →
          env2.sendOk
              ("Сбой в работе программы: " ++ ("Код ответа API: " ++ toString c2)) = true →
          (main_iteration env2 (main_iteration env1 s).state).sent
            = ["Сбой в работе программы: " ++ ("Код ответа API: " ++ toString c2)]) := by
  have hfail1 : (get_api_answer env1 env1.now).snd
      = Except.error (BotError.getAPIAnswerException ("Код ответа API: " ++ toString c1)) := by
    simp [get_api_answer, py_or_int_self, h1, hc1]
  have hfail2 : (get_api_answer env2 env2.now).snd
      = Except.error (BotError.getAPIAnswerException ("Код ответа API: " ++ toString c2)) := by
    simp [get_api_answer, py_or_int_self, h2, hc2]
  have hr1 := main_iteration_error env1 s _ hfail1
  have hh1 := handle_error_eq_fresh_ok env1 s []
    (BotError.getAPIAnswerException ("Код ответа API: " ++ toString c1)) hfresh hsend1
  have hstate1 : (main_iteration env1 s).state
      = { s with current_error := "Код ответа API: " ++ toString c1 } := by
    rw [hr1, hh1]
    rfl
  refine ⟨by rw [hr1, hh1]; rfl, ?_, ?_⟩
  · intro heq
    have hr2 := main_iteration_error env2 (main_iteration env1 s).state _ hfail2
    have hdup : ((main_iteration env1 s).state).current_error
        = errorStr (BotError.getAPIAnswerException ("Код ответа API: " ++ toString c2)) := by
      rw [hstate1]
      exact heq.symm
    rw [hr2, handle_error_eq_dup env2 (main_iteration env1 s).state []
      (BotError.getAPIAnswerException ("Код ответа API: " ++ toString c2)) hdup]
  · intro hne hsend2
    have hr2 := main_iteration_error env2 (main_iteration env1 s).state _ hfail2
    have hdedup2 : ((main_iteration env1 s).state).current_error
        ≠ errorStr (BotError.getAPIAnswerException ("Код ответа API: " ++ toString c2)) := by
      rw [hstate1]
      exact Ne.symm hne
    rw [hr2, handle_error_eq_fresh_ok env2 (main_iteration env1 s).state []
      (BotError.getAPIAnswerException ("Код ответа API: " ++ toString c2)) hdedup2 hsend2]
    rfl

/-- Witness for C9: a 503 at time 100 notifies once; a second 503 at time
700 is suppressed, while a 404 at time 700 produces a second notification. -/
theorem C9_error_deduplication_witness :
    (main_iteration (env503 100) initState).sent
        = ["Сбой в работе программы: " ++ ("Код ответа API: " ++ toString (503 : Nat))]
      ∧ (main_iteration (env503 700)
            (main_iteration (env503 100) initState).state).sent = []
      ∧ (main_iteration (env404 700)
            (main_iteration (env503 100) initState).state).sent
          = ["Сбой в работе программы: " ++ ("Код ответа API: " ++ toString (404 : Nat))] := by
  have ha := C9_error_deduplication (env503 100) (env503 700) initState 503 503
    (Body.json Json.null) (Body.json Json.null) rfl rfl
    (by decide) (by decide) (by decide) rfl
  have hb := C9_error_deduplication (env503 100) (env404 700) initState 503 404
    (Body.json Json.null) (Body.json Json.null) rfl rfl
    (by decide) (by decide) (by decide) rfl
  exact ⟨ha.1, ha.2.1 rfl, hb.2.2 (by decide) rfl⟩

end HomeworkBot
